import Mathlib

/-!
Nine-slice filter: parameter builder and lifecycle.

Shallow embedding of the two builds of the filter:

* `src/filter-9slice.c`  (namespace `Filter9Slice`): fixed, user-entered output scale;
* `src/plugin-main.c`    (namespace `PluginMain`): output scale read from the scene item.

Conventions of the embedding.

* C `float` and `double` values are kept abstract: a `FloatSem` supplies the two carriers and
  the few operations the C code applies to them (the narrowing cast, the conversion from and
  to `uint32_t`, the product, the constants `0.0f` and `1.0f`).  Every general theorem holds
  for all such semantics; `exactSem` (rationals, exact arithmetic) and `specialSem` (the same
  with the IEEE 754 special values) are used to evaluate the code on concrete inputs.
* Pointers to host objects are handles (`Nat`); a nullable pointer is an `Option`.
* The host (libobs) is a record `Host` of the answers it gives.  The calls that act on the
  host (allocation, graphics context, effect, scene enumeration, filter pass, slot writes)
  are appended to a trace of `HostCall`s, in program order.  Calls that only read (the parent,
  its size and name, the settings getters), logging, and the allocation of the effect file
  name are not traced.
-/

/-- Semantics of the C floating-point types as far as the filter uses them. -/
structure FloatSem where
  /-- The carrier of `double`. -/
  D : Type
  /-- The carrier of `float`. -/
  F : Type
  /-- The cast `(float)d`. -/
  ofDouble : D → F
  /-- The conversion of a `uint32_t` to `float`. -/
  ofU32 : Nat → F
  /-- The conversion of a `float` to a `uint32_t` argument. -/
  toU32 : F → Nat
  /-- The `float` product. -/
  mul : F → F → F
  /-- The constant `0.0f` (the value of zeroed memory). -/
  zero : F
  /-- The constant `1.0f`. -/
  one : F
  /-- The test `0 <= x`. -/
  nonneg : F → Bool

/-- Exact arithmetic over the rationals: no rounding, no infinities, no NaN. -/
@[reducible] def exactSem : FloatSem where
  D := ℚ
  F := ℚ
  ofDouble := fun d => d
  ofU32 := fun n => (n : ℚ)
  toU32 := fun q => Nat.floor q
  mul := fun a b => a * b
  zero := 0
  one := 1
  nonneg := fun q => decide (0 ≤ q)

/-- The libobs `struct vec2`. -/
structure vec2 (M : FloatSem) where
  x : M.F
  y : M.F

/-- The libobs `struct vec4`. -/
structure vec4 (M : FloatSem) where
  x : M.F
  y : M.F
  z : M.F
  w : M.F

/-- The settings object `obs_data_t`, as far as the filter reads and writes it: the boolean
and the number stored under each key. -/
structure obs_data (M : FloatSem) where
  bools : String → Bool
  doubles : String → M.D

/-- Host call `obs_data_get_bool`. -/
def obs_data_get_bool {M : FloatSem} (settings : obs_data M) (key : String) : Bool :=
  settings.bools key

/-- Host call `obs_data_get_double`. -/
def obs_data_get_double {M : FloatSem} (settings : obs_data M) (key : String) : M.D :=
  settings.doubles key

/-- Host call `obs_data_set_double`. -/
def obs_data_set_double {M : FloatSem} (settings : obs_data M) (key : String) (v : M.D) :
    obs_data M :=
  { settings with doubles := fun k => if k = key then v else settings.doubles k }

/-- The five parameter slots of the effect (`struct filter_9slice_params_t`); `none` is a
null `gs_eparam_t *`. -/
structure filter_9slice_params_t where
  border : Option Nat
  output_size : Option Nat
  source_size : Option Nat
  show_uvs : Option Nat
  use_linear_filtering : Option Nat

/-- The calls the filter makes on the host, as recorded in the trace. -/
inductive HostCall (M : FloatSem) where
  | bzalloc
  | bfree
  | obs_enter_graphics
  | obs_leave_graphics
  | gs_effect_destroy (effect : Nat)
  | gs_effect_create_from_file (result : Option Nat)
  | gs_effect_get_param_by_name (effect : Nat) (name : String)
  | obs_enum_scenes
  | obs_source_process_filter_begin (source : Nat)
  | gs_effect_set_vec4 (param : Option Nat) (v : vec4 M)
  | gs_effect_set_vec2 (param : Option Nat) (v : vec2 M)
  | gs_effect_set_bool (param : Option Nat) (b : Bool)
  | obs_source_process_filter_end (source : Nat) (effect : Option Nat) (width height : Nat)

/-- The answers of the host. -/
structure Host (M : FloatSem) where
  /-- Result of `gs_effect_create_from_file` on `sliced.hlsl`; `none` when loading fails. -/
  effect_create_from_file : Option Nat
  /-- Result of `gs_effect_get_param_by_name`; `none` when the slot does not resolve. -/
  effect_get_param_by_name : Nat → String → Option Nat
  /-- Result of `obs_filter_get_parent`. -/
  filter_get_parent : Nat → Nat
  /-- Result of `obs_source_get_width`. -/
  source_get_width : Nat → Nat
  /-- Result of `obs_source_get_height`. -/
  source_get_height : Nat → Nat
  /-- Result of `obs_source_get_name`. -/
  source_get_name : Nat → String
  /-- Result of `obs_source_process_filter_begin`. -/
  process_filter_begin : Nat → Bool
  /-- The scene sources `obs_enum_scenes` walks through, in order. -/
  scenes : List Nat
  /-- Result of `obs_group_or_scene_from_source`. -/
  group_or_scene_from_source : Nat → Option Nat
  /-- Result of `obs_scene_find_source_recursive`. -/
  scene_find_source_recursive : Nat → String → Option Nat
  /-- The scale `obs_sceneitem_get_scale` writes. -/
  sceneitem_get_scale : Nat → vec2 M

/-- The five slots, all null (`filter_reload_effect`, lines 99-104). -/
def params_null : filter_9slice_params_t :=
  { border := none, output_size := none, source_size := none,
    show_uvs := none, use_linear_filtering := none }

/-- The five slots as resolved by name on a loaded effect (`filter_reload_effect`). -/
def params_resolve {M : FloatSem} (H : Host M) (effect : Nat) : filter_9slice_params_t :=
  { show_uvs := H.effect_get_param_by_name effect "show_uvs",
    use_linear_filtering := H.effect_get_param_by_name effect "use_linear_filtering",
    border := H.effect_get_param_by_name effect "border",
    output_size := H.effect_get_param_by_name effect "output_size",
    source_size := H.effect_get_param_by_name effect "source_size" }

/-- The five `gs_effect_get_param_by_name` calls of `filter_reload_effect`, in order. -/
def params_resolve_calls (M : FloatSem) (effect : Nat) : List (HostCall M) :=
  [ .gs_effect_get_param_by_name effect "show_uvs",
    .gs_effect_get_param_by_name effect "use_linear_filtering",
    .gs_effect_get_param_by_name effect "border",
    .gs_effect_get_param_by_name effect "output_size",
    .gs_effect_get_param_by_name effect "source_size" ]

namespace Filter9Slice

/-- The instance record `struct filter_9slice` of `filter-9slice.c`. -/
structure filter_9slice (M : FloatSem) where
  source : Nat
  effect : Option Nat
  border : vec4 M
  output_pixel_scale : vec2 M
  last_source_size : vec2 M
  show_uvs : Bool
  uniform_scale : Bool
  use_linear_filtering : Bool
  params : filter_9slice_params_t

/-- The record `bzalloc` returns: all bytes zero. -/
def zeroed (M : FloatSem) : filter_9slice M :=
  { source := 0, effect := none,
    border := ⟨M.zero, M.zero, M.zero, M.zero⟩,
    output_pixel_scale := ⟨M.zero, M.zero⟩,
    last_source_size := ⟨M.zero, M.zero⟩,
    show_uvs := false, uniform_scale := false, use_linear_filtering := false,
    params := params_null }

/-- `filter_destroy` (lines 65-80): the calls made. -/
def filter_destroy {M : FloatSem} (data : Option (filter_9slice M)) : List (HostCall M) :=
  match data with
  | none => []
  | some context =>
    [.obs_enter_graphics]
      ++ (match context.effect with
          | some e => [.gs_effect_destroy e]
          | none => [])
      ++ [.bfree, .obs_leave_graphics]

/-- `filter_reload_effect` (lines 82-142): the return value, the instance afterwards and
the calls made. -/
def filter_reload_effect {M : FloatSem} (H : Host M) (context : filter_9slice M) :
    Bool × filter_9slice M × List (HostCall M) :=
  let t0 : List (HostCall M) := [.obs_enter_graphics]
  -- cleanup any existing effect.
  let t1 : List (HostCall M) :=
    match context.effect with
    | some e => t0 ++ [.gs_effect_destroy e]
    | none => t0
  let context := { context with effect := H.effect_create_from_file }
  let t2 := t1 ++ [.gs_effect_create_from_file H.effect_create_from_file]
  let context := { context with params := params_null }
  match context.effect with
  | none => (false, context, t2 ++ [.obs_leave_graphics])
  | some effect =>
    let context := { context with params := params_resolve H effect }
    (true, context, t2 ++ params_resolve_calls M effect ++ [.obs_leave_graphics])

/-- `filter_render` (lines 144-178): the instance afterwards and the calls made. -/
def filter_render {M : FloatSem} (H : Host M) (data : Option (filter_9slice M)) :
    Option (filter_9slice M) × List (HostCall M) :=
  match data with
  | none => (none, [])
  | some context =>
    let parent := H.filter_get_parent context.source
    let width := H.source_get_width parent
    let height := H.source_get_height parent
    let context := { context with last_source_size := ⟨M.ofU32 width, M.ofU32 height⟩ }
    let output_size : vec2 M :=
      ⟨M.mul (M.ofU32 width) context.output_pixel_scale.x,
       M.mul (M.ofU32 height) context.output_pixel_scale.y⟩
    if H.process_filter_begin context.source = false then
      (some context, [.obs_source_process_filter_begin context.source])
    else
      let params := context.params
      (some context,
        [ .obs_source_process_filter_begin context.source,
          .gs_effect_set_vec4 params.border context.border,
          .gs_effect_set_vec2 params.source_size context.last_source_size,
          .gs_effect_set_vec2 params.output_size output_size,
          .gs_effect_set_bool params.show_uvs context.show_uvs,
          .gs_effect_set_bool params.use_linear_filtering context.use_linear_filtering,
          .obs_source_process_filter_end context.source context.effect width height ])

/-- `filter_update` (lines 180-217): the instance and the settings afterwards. -/
def filter_update {M : FloatSem} (context : filter_9slice M) (settings : obs_data M) :
    filter_9slice M × obs_data M :=
  let show_uvs := obs_data_get_bool settings "show_uvs"
  let uniform_scale := obs_data_get_bool settings "uniform_scale"
  let use_linear_filtering := obs_data_get_bool settings "use_linear_filtering"
  let output_scale_x := obs_data_get_double settings "output_scale_x"
  let output_scale_y := obs_data_get_double settings "output_scale_y"
  let border_top := obs_data_get_double settings "border_top"
  let border_left := obs_data_get_double settings "border_left"
  let border_bottom := obs_data_get_double settings "border_bottom"
  let border_right := obs_data_get_double settings "border_right"
  let context := { context with
    show_uvs := show_uvs, uniform_scale := uniform_scale,
    use_linear_filtering := use_linear_filtering }
  let context := { context with
    output_pixel_scale :=
      ⟨M.ofDouble output_scale_x,
       if uniform_scale then M.ofDouble output_scale_x else M.ofDouble output_scale_y⟩ }
  let settings :=
    if uniform_scale then obs_data_set_double settings "output_scale_y" output_scale_x
    else settings
  let context := { context with
    border :=
      ⟨M.ofDouble border_top, M.ofDouble border_left,
       M.ofDouble border_bottom, M.ofDouble border_right⟩ }
  (context, settings)

/-- `filter_create` (lines 219-236): the returned instance (`none` is null), the settings
afterwards and the calls made. -/
def filter_create {M : FloatSem} (H : Host M) (settings : obs_data M) (source : Nat) :
    Option (filter_9slice M) × obs_data M × List (HostCall M) :=
  let context := { zeroed M with source := source }
  let t0 : List (HostCall M) := [.bzalloc]
  match filter_reload_effect H context with
  | (false, context, t1) => (none, settings, t0 ++ t1 ++ filter_destroy (some context))
  | (true, context, t1) =>
    let r := filter_update context settings
    (some r.1, r.2, t0 ++ t1)

end Filter9Slice

namespace PluginMain

/-- The instance record `struct filter_9slice` of `plugin-main.c`. -/
structure filter_9slice (M : FloatSem) where
  source : Nat
  effect : Option Nat
  border : vec4 M
  last_source_size : vec2 M
  show_uvs : Bool
  use_linear_filtering : Bool
  params : filter_9slice_params_t

/-- The record `bzalloc` returns: all bytes zero. -/
def zeroed (M : FloatSem) : filter_9slice M :=
  { source := 0, effect := none,
    border := ⟨M.zero, M.zero, M.zero, M.zero⟩,
    last_source_size := ⟨M.zero, M.zero⟩,
    show_uvs := false, use_linear_filtering := false,
    params := params_null }

/-- `filter_destroy` (lines 48-63): the calls made. -/
def filter_destroy {M : FloatSem} (data : Option (filter_9slice M)) : List (HostCall M) :=
  match data with
  | none => []
  | some context =>
    [.obs_enter_graphics]
      ++ (match context.effect with
          | some e => [.gs_effect_destroy e]
          | none => [])
      ++ [.bfree, .obs_leave_graphics]

/-- `filter_reload_effect` (lines 65-127): the return value, the instance afterwards and
the calls made. -/
def filter_reload_effect {M : FloatSem} (H : Host M) (context : filter_9slice M) :
    Bool × filter_9slice M × List (HostCall M) :=
  let t0 : List (HostCall M) := [.obs_enter_graphics]
  -- cleanup any existing effect.
  let t1 : List (HostCall M) :=
    match context.effect with
    | some e => t0 ++ [.gs_effect_destroy e]
    | none => t0
  let context := { context with effect := H.effect_create_from_file }
  let t2 := t1 ++ [.gs_effect_create_from_file H.effect_create_from_file]
  let context := { context with params := params_null }
  match context.effect with
  | none => (false, context, t2 ++ [.obs_leave_graphics])
  | some effect =>
    let context := { context with params := params_resolve H effect }
    (true, context, t2 ++ params_resolve_calls M effect ++ [.obs_leave_graphics])

/-- The record `struct cb_data` handed to the scene enumeration. -/
structure cb_data where
  parent : Nat
  found : Option Nat

/-- `enum_scenes_callback` (lines 135-151): the return value (`true` continues the
enumeration) and the callback data afterwards. -/
def enum_scenes_callback {M : FloatSem} (H : Host M) (data : cb_data) (scene_source : Nat) :
    Bool × cb_data :=
  match H.group_or_scene_from_source scene_source with
  | none => (true, data)
  | some scene =>
    match H.scene_find_source_recursive scene (H.source_get_name data.parent) with
    | none => (true, data)
    | some found =>
      -- found the scene-item that contain our source!
      (false, { data with found := some found })

/-- Host call `obs_enum_scenes`: the callback is run on each scene source in turn, until it
returns `false` or the scenes are exhausted. -/
def obs_enum_scenes {σ : Type} (enum_proc : σ → Nat → Bool × σ) : List Nat → σ → σ
  | [], data => data
  | scene_source :: rest, data =>
    match enum_proc data scene_source with
    | (true, data) => obs_enum_scenes enum_proc rest data
    | (false, data) => data

/-- `filter_render` (lines 153-201): the instance afterwards and the calls made. -/
def filter_render {M : FloatSem} (H : Host M) (data : Option (filter_9slice M)) :
    Option (filter_9slice M) × List (HostCall M) :=
  match data with
  | none => (none, [])
  | some context =>
    let parent := H.filter_get_parent context.source
    let target : cb_data := { parent := parent, found := none }
    let target := obs_enum_scenes (enum_scenes_callback H) H.scenes target
    let scale : vec2 M :=
      match target.found with
      | some found => H.sceneitem_get_scale found
      | none => ⟨M.one, M.one⟩
    let width : M.F := M.ofU32 (H.source_get_width parent)
    let height : M.F := M.ofU32 (H.source_get_height parent)
    let context := { context with last_source_size := ⟨width, height⟩ }
    let output_size : vec2 M := ⟨M.mul width scale.x, M.mul height scale.y⟩
    if H.process_filter_begin context.source = false then
      (some context, [.obs_enum_scenes, .obs_source_process_filter_begin context.source])
    else
      let params := context.params
      (some context,
        [ .obs_enum_scenes,
          .obs_source_process_filter_begin context.source,
          .gs_effect_set_vec4 params.border context.border,
          .gs_effect_set_vec2 params.source_size context.last_source_size,
          .gs_effect_set_vec2 params.output_size output_size,
          .gs_effect_set_bool params.show_uvs context.show_uvs,
          .gs_effect_set_bool params.use_linear_filtering context.use_linear_filtering,
          .obs_source_process_filter_end context.source context.effect
            (M.toU32 width) (M.toU32 height) ])

/-- `filter_update` (lines 203-225): the instance and the settings afterwards. -/
def filter_update {M : FloatSem} (context : filter_9slice M) (settings : obs_data M) :
    filter_9slice M × obs_data M :=
  let show_uvs := obs_data_get_bool settings "show_uvs"
  let use_linear_filtering := obs_data_get_bool settings "use_linear_filtering"
  let border_top := obs_data_get_double settings "border_top"
  let border_left := obs_data_get_double settings "border_left"
  let border_bottom := obs_data_get_double settings "border_bottom"
  let border_right := obs_data_get_double settings "border_right"
  let context := { context with
    show_uvs := show_uvs, use_linear_filtering := use_linear_filtering }
  let context := { context with
    border :=
      ⟨M.ofDouble border_top, M.ofDouble border_left,
       M.ofDouble border_bottom, M.ofDouble border_right⟩ }
  (context, settings)

/-- `filter_create` (lines 227-244): the returned instance (`none` is null), the settings
afterwards and the calls made. -/
def filter_create {M : FloatSem} (H : Host M) (settings : obs_data M) (source : Nat) :
    Option (filter_9slice M) × obs_data M × List (HostCall M) :=
  let context := { zeroed M with source := source }
  let t0 : List (HostCall M) := [.bzalloc]
  match filter_reload_effect H context with
  | (false, context, t1) => (none, settings, t0 ++ t1 ++ filter_destroy (some context))
  | (true, context, t1) =>
    let r := filter_update context settings
    (some r.1, r.2, t0 ++ t1)

end PluginMain

/-! ## Vocabulary of the statements -/

/-- The live width of the filtered source: `obs_source_get_width` of the filter's parent. -/
def live_width {M : FloatSem} (H : Host M) (source : Nat) : Nat :=
  H.source_get_width (H.filter_get_parent source)

/-- The live height of the filtered source: `obs_source_get_height` of the filter's parent. -/
def live_height {M : FloatSem} (H : Host M) (source : Nat) : Nat :=
  H.source_get_height (H.filter_get_parent source)

/-- The calls of one frame whose filter pass begins: the pass is begun on `source`, the five
slots `params` are written with `border`, `source_size`, `output_size`, `show_uvs` and
`use_linear_filtering`, and the pass is ended with `effect` at `width` x `height`. -/
def bound_frame {M : FloatSem} (source : Nat) (effect : Option Nat)
    (params : filter_9slice_params_t) (border : vec4 M) (source_size output_size : vec2 M)
    (show_uvs use_linear_filtering : Bool) (width height : Nat) : List (HostCall M) :=
  [ .obs_source_process_filter_begin source,
    .gs_effect_set_vec4 params.border border,
    .gs_effect_set_vec2 params.source_size source_size,
    .gs_effect_set_vec2 params.output_size output_size,
    .gs_effect_set_bool params.show_uvs show_uvs,
    .gs_effect_set_bool params.use_linear_filtering use_linear_filtering,
    .obs_source_process_filter_end source effect width height ]

/-- The placement of a source in the composition: the scene item that the first scene
source, in enumeration order, which is a scene or group and contains a source of the same name
as `parent`, reports for it; `none` when no scene source has one. -/
def placement_of {M : FloatSem} (H : Host M) (parent : Nat) : Option Nat :=
  H.scenes.findSome? fun scene_source =>
    (H.group_or_scene_from_source scene_source).bind fun scene =>
      H.scene_find_source_recursive scene (H.source_get_name parent)

/-- The graphics-context discipline on a trace, read left to right with `inside` telling
whether the context is currently held: `obs_enter_graphics` only when it is not held,
`obs_leave_graphics` only when it is held, effect creation and destruction only while it is
held, and the context released when the trace ends. -/
def graphics_scoped {M : FloatSem} : Bool → List (HostCall M) → Bool
  | inside, [] => !inside
  | inside, .obs_enter_graphics :: rest => !inside && graphics_scoped true rest
  | inside, .obs_leave_graphics :: rest => inside && graphics_scoped false rest
  | inside, .gs_effect_destroy _ :: rest => inside && graphics_scoped inside rest
  | inside, .gs_effect_create_from_file _ :: rest => inside && graphics_scoped inside rest
  | inside, _ :: rest => graphics_scoped inside rest

/-- The slot handles passed to the set-parameter calls of a trace (`gs_effect_set_vec4`,
`gs_effect_set_vec2`, `gs_effect_set_bool`), in call order; `none` is a call made with a null
handle. -/
def set_param_handles {M : FloatSem} : List (HostCall M) → List (Option Nat)
  | [] => []
  | .gs_effect_set_vec4 param _ :: rest => param :: set_param_handles rest
  | .gs_effect_set_vec2 param _ :: rest => param :: set_param_handles rest
  | .gs_effect_set_bool param _ :: rest => param :: set_param_handles rest
  | _ :: rest => set_param_handles rest

/-- A call the host makes on a filter between its creation and its destruction: the
`update` or the `video_render` entry of the registration record (`struct obs_source_info`),
the latter with the answers the host gives during that frame. -/
inductive LifecycleCall (M : FloatSem) where
  | update (settings : obs_data M)
  | video_render (H : Host M)

/-- The instance of `filter-9slice.c` the host holds after a sequence of lifecycle calls on
`data`.  `filter_update` is only called on an instance (it dereferences its argument
unguarded); `filter_render` is called with whatever the host holds. -/
def Filter9Slice.after_calls {M : FloatSem} :
    Option (Filter9Slice.filter_9slice M) → List (LifecycleCall M) →
      Option (Filter9Slice.filter_9slice M)
  | data, [] => data
  | data, .update settings :: rest =>
    Filter9Slice.after_calls
      (data.map fun context => (Filter9Slice.filter_update context settings).1) rest
  | data, .video_render H :: rest =>
    Filter9Slice.after_calls (Filter9Slice.filter_render H data).1 rest

/-- The instance of `plugin-main.c` the host holds after a sequence of lifecycle calls on
`data`.  `filter_update` is only called on an instance (it dereferences its argument
unguarded); `filter_render` is called with whatever the host holds. -/
def PluginMain.after_calls {M : FloatSem} :
    Option (PluginMain.filter_9slice M) → List (LifecycleCall M) →
      Option (PluginMain.filter_9slice M)
  | data, [] => data
  | data, .update settings :: rest =>
    PluginMain.after_calls
      (data.map fun context => (PluginMain.filter_update context settings).1) rest
  | data, .video_render H :: rest =>
    PluginMain.after_calls (PluginMain.filter_render H data).1 rest

/-- Rationals extended with the special values of IEEE 754 arithmetic: not-a-number and the
two infinities. -/
inductive ExtQ where
  | nan
  | neg_inf
  | pos_inf
  | fin (q : ℚ)

/-- The product on `ExtQ`, with the IEEE 754 rules for the special values: a NaN operand
gives NaN, zero times an infinity gives NaN, and otherwise an infinite operand gives the
infinity of the product's sign. -/
def ExtQ.mul : ExtQ → ExtQ → ExtQ
  | .nan, _ => .nan
  | _, .nan => .nan
  | .fin a, .fin b => .fin (a * b)
  | .fin a, .pos_inf => if a = 0 then .nan else if 0 < a then .pos_inf else .neg_inf
  | .fin a, .neg_inf => if a = 0 then .nan else if 0 < a then .neg_inf else .pos_inf
  | .pos_inf, .fin b => if b = 0 then .nan else if 0 < b then .pos_inf else .neg_inf
  | .neg_inf, .fin b => if b = 0 then .nan else if 0 < b then .neg_inf else .pos_inf
  | .pos_inf, .pos_inf => .pos_inf
  | .pos_inf, .neg_inf => .neg_inf
  | .neg_inf, .pos_inf => .neg_inf
  | .neg_inf, .neg_inf => .pos_inf

/-- The test `0 <= x` on `ExtQ`: false for NaN, as every IEEE 754 comparison with NaN. -/
def ExtQ.nonneg : ExtQ → Bool
  | .fin q => decide (0 ≤ q)
  | .pos_inf => true
  | _ => false

/-- Exact arithmetic with the IEEE 754 special values: as `exactSem` on finite values (no
rounding, no overflow), with NaN and the infinities behaving as in IEEE 754. -/
@[reducible] def specialSem : FloatSem where
  D := ExtQ
  F := ExtQ
  ofDouble := fun d => d
  ofU32 := fun n => .fin (n : ℚ)
  toU32 := fun x =>
    match x with
    | .fin q => Nat.floor q
    | _ => 0
  mul := ExtQ.mul
  zero := .fin 0
  one := .fin 1
  nonneg := ExtQ.nonneg

/-! ## Sample inputs -/

/-- Sample settings: uniform scale 4 with a stale `output_scale_y` of 9, borders 8, both
flags off. -/
def sampleSettings : obs_data exactSem where
  bools := fun k => if k = "uniform_scale" then true else false
  doubles := fun k =>
    if k = "output_scale_x" then (4 : ℚ)
    else if k = "output_scale_y" then (9 : ℚ)
    else (8 : ℚ)

/-- Sample host: the effect loads as handle 1 and every slot resolves, the parent source is
100 x 50, the filter pass begins, and there is no scene. -/
def sampleHost : Host exactSem where
  effect_create_from_file := some 1
  effect_get_param_by_name := fun _ name => some name.length
  filter_get_parent := fun s => s + 1
  source_get_width := fun _ => 100
  source_get_height := fun _ => 50
  source_get_name := fun _ => "parent"
  process_filter_begin := fun _ => true
  scenes := []
  group_or_scene_from_source := fun _ => none
  scene_find_source_recursive := fun _ _ => none
  sceneitem_get_scale := fun _ => ⟨(1 : ℚ), (1 : ℚ)⟩

/-- Sample host on which the effect loads but only the slot `show_uvs` resolves. -/
def degradedHost : Host exactSem :=
  { sampleHost with
    effect_get_param_by_name := fun _ name => if name = "show_uvs" then some 8 else none }

/-- Sample host on which the effect fails to load. -/
def failingHost : Host exactSem :=
  { sampleHost with effect_create_from_file := none }

/-- Sample host with two scene sources: 10 is not a scene, 11 is the scene 21, in which the
parent source is placed as scene item 31, flipped horizontally (scale -1 x 1). -/
def flippedHost : Host exactSem :=
  { sampleHost with
    scenes := [10, 11]
    group_or_scene_from_source := fun s => if s = 11 then some 21 else none
    scene_find_source_recursive := fun scene name =>
      if scene = 21 ∧ name = "parent" then some 31 else none
    sceneitem_get_scale := fun _ => ⟨(-1 : ℚ), (1 : ℚ)⟩ }

/-- Sample instance of `filter-9slice.c`: source 5, effect 1 with the slots of `sampleHost`,
and a stale `last_source_size` of 7 x 7. -/
def sampleCtx : Filter9Slice.filter_9slice exactSem :=
  { Filter9Slice.zeroed exactSem with
    source := 5, effect := some 1, last_source_size := ⟨(7 : ℚ), (7 : ℚ)⟩,
    params := params_resolve sampleHost 1 }

/-- Sample instance of `plugin-main.c`: source 5, effect 1 with the slots of `sampleHost`,
and a stale `last_source_size` of 7 x 7. -/
def samplePluginCtx : PluginMain.filter_9slice exactSem :=
  { PluginMain.zeroed exactSem with
    source := 5, effect := some 1, last_source_size := ⟨(7 : ℚ), (7 : ℚ)⟩,
    params := params_resolve sampleHost 1 }

/-- Sample settings over `specialSem`: non-uniform scale with an infinite `output_scale_x`
and `output_scale_y` 4, borders 8, both flags off. -/
def infiniteSettings : obs_data specialSem where
  bools := fun _ => false
  doubles := fun k =>
    if k = "output_scale_x" then ExtQ.pos_inf
    else if k = "output_scale_y" then ExtQ.fin 4
    else ExtQ.fin 8

/-- Sample host over `specialSem`: as `sampleHost`, a 100 x 50 parent source and no scene. -/
def specialHost : Host specialSem where
  effect_create_from_file := some 1
  effect_get_param_by_name := fun _ name => some name.length
  filter_get_parent := fun s => s + 1
  source_get_width := fun _ => 100
  source_get_height := fun _ => 50
  source_get_name := fun _ => "parent"
  process_filter_begin := fun _ => true
  scenes := []
  group_or_scene_from_source := fun _ => none
  scene_find_source_recursive := fun _ _ => none
  sceneitem_get_scale := fun _ => ⟨ExtQ.fin 1, ExtQ.fin 1⟩

/-- Sample host over `specialSem` whose parent source is 0 x 50 (no width yet). -/
def emptySourceHost : Host specialSem :=
  { specialHost with source_get_width := fun _ => 0 }

/-- Sample instance of `filter-9slice.c` over `specialSem`: source 5, effect 1, no slot
resolved. -/
def specialCtx : Filter9Slice.filter_9slice specialSem :=
  { Filter9Slice.zeroed specialSem with source := 5, effect := some 1 }

/-- In `filter-9slice.c`, a frame whose pass begins stores the live source size and makes
exactly the calls of `bound_frame`, with the output size the live size times the stored
pixel scale and the pass ended at the live size. -/
theorem fixed_filter_render_begun {M : FloatSem} (H : Host M)
    (c : Filter9Slice.filter_9slice M) (hb : H.process_filter_begin c.source = true) :
    Filter9Slice.filter_render H (some c)
      = (some { c with last_source_size :=
                  ⟨M.ofU32 (live_width H c.source), M.ofU32 (live_height H c.source)⟩ },
         bound_frame c.source c.effect c.params c.border
           ⟨M.ofU32 (live_width H c.source), M.ofU32 (live_height H c.source)⟩
           ⟨M.mul (M.ofU32 (live_width H c.source)) c.output_pixel_scale.x,
            M.mul (M.ofU32 (live_height H c.source)) c.output_pixel_scale.y⟩
           c.show_uvs c.use_linear_filtering
           (live_width H c.source) (live_height H c.source)) := by
  simp only [Filter9Slice.filter_render, hb, reduceCtorEq, if_false]
  rfl

/-- The scene enumeration with `enum_scenes_callback` keeps an item already found, and
otherwise finds the first placement among the scenes it walks. -/
theorem obs_enum_scenes_found {M : FloatSem} (H : Host M) (parent : Nat)
    (scenes : List Nat) :
    (PluginMain.obs_enum_scenes (PluginMain.enum_scenes_callback H) scenes
        { parent := parent, found := none }).found
      = scenes.findSome? fun scene_source =>
          (H.group_or_scene_from_source scene_source).bind fun scene =>
            H.scene_find_source_recursive scene (H.source_get_name parent) := by
  induction scenes with
  | nil => rfl
  | cons a rest ih =>
    simp only [PluginMain.obs_enum_scenes, PluginMain.enum_scenes_callback, List.findSome?]
    cases hg : H.group_or_scene_from_source a with
    | none => simpa using ih
    | some scene =>
      cases hf : H.scene_find_source_recursive scene (H.source_get_name parent) with
      | none => simpa [hf] using ih
      | some item => simp [hf]

/-- In `plugin-main.c`, a frame whose pass begins stores the live source size and makes,
after the scene enumeration, exactly the calls of `bound_frame`, with the output size the
live size times the scale of the placement found (or times `1.0f` when there is none). -/
theorem scene_filter_render_begun {M : FloatSem} (H : Host M)
    (c : PluginMain.filter_9slice M) (hb : H.process_filter_begin c.source = true) :
    PluginMain.filter_render H (some c)
      = (some { c with last_source_size :=
                  ⟨M.ofU32 (live_width H c.source), M.ofU32 (live_height H c.source)⟩ },
         .obs_enum_scenes ::
           bound_frame c.source c.effect c.params c.border
             ⟨M.ofU32 (live_width H c.source), M.ofU32 (live_height H c.source)⟩
             (match placement_of H (H.filter_get_parent c.source) with
              | some found =>
                ⟨M.mul (M.ofU32 (live_width H c.source)) (H.sceneitem_get_scale found).x,
                 M.mul (M.ofU32 (live_height H c.source)) (H.sceneitem_get_scale found).y⟩
              | none =>
                ⟨M.mul (M.ofU32 (live_width H c.source)) M.one,
                 M.mul (M.ofU32 (live_height H c.source)) M.one⟩)
             c.show_uvs c.use_linear_filtering
             (M.toU32 (M.ofU32 (live_width H c.source)))
             (M.toU32 (M.ofU32 (live_height H c.source)))) := by
  simp only [PluginMain.filter_render, hb, reduceCtorEq, if_false,
    obs_enum_scenes_found, placement_of]
  cases H.scenes.findSome? fun scene_source =>
      (H.group_or_scene_from_source scene_source).bind fun scene =>
        H.scene_find_source_recursive scene
          (H.source_get_name (H.filter_get_parent c.source)) <;> rfl

/-- The frame of the sample instance of `filter-9slice.c`, updated with the sample settings,
on the sample host (exact arithmetic): source 100 x 50, uniform scale 4. -/
theorem fixed_sample_frame :
    (Filter9Slice.filter_render sampleHost
        (some (Filter9Slice.filter_update sampleCtx sampleSettings).1)).2
      = bound_frame 5 (some 1) (params_resolve sampleHost 1)
          (⟨(8 : ℚ), (8 : ℚ), (8 : ℚ), (8 : ℚ)⟩ : vec4 exactSem)
          (⟨(100 : ℚ), (50 : ℚ)⟩ : vec2 exactSem)
          (⟨(400 : ℚ), (200 : ℚ)⟩ : vec2 exactSem)
          false false 100 50 := by
  rw [fixed_filter_render_begun sampleHost (Filter9Slice.filter_update sampleCtx sampleSettings).1
    rfl]
  show bound_frame 5 (some 1) (params_resolve sampleHost 1)
      (⟨(8 : ℚ), (8 : ℚ), (8 : ℚ), (8 : ℚ)⟩ : vec4 exactSem)
      (⟨((100 : ℕ) : ℚ), ((50 : ℕ) : ℚ)⟩ : vec2 exactSem)
      (⟨((100 : ℕ) : ℚ) * (4 : ℚ), ((50 : ℕ) : ℚ) * (4 : ℚ)⟩ : vec2 exactSem)
      false false 100 50 = _
  have hx : ((100 : ℕ) : ℚ) * (4 : ℚ) = 400 := by norm_num
  have hy : ((50 : ℕ) : ℚ) * (4 : ℚ) = 200 := by norm_num
  rw [hx, hy]
  rfl

/-! ## C1: the frame parameters follow the settings and the live source size -/

/-- Claim C1. After `filter_update` with settings `s`, a `filter_render` whose filter pass
begins binds, in both builds, `border` to the four border settings in the order top, left,
bottom, right (each cast to `float`), `source_size` to the live source size, `show_uvs` and
`use_linear_filtering` to the settings of the same name, and leaves `last_source_size` equal
to the live source size, whatever the instance held before. -/
theorem C1_update_then_render_binds_settings {M : FloatSem} (H : Host M) (s : obs_data M)
    (c : Filter9Slice.filter_9slice M) (c' : PluginMain.filter_9slice M)
    (hb : H.process_filter_begin c.source = true)
    (hb' : H.process_filter_begin c'.source = true) :
    (∃ c2 out,
      Filter9Slice.filter_render H (some (Filter9Slice.filter_update c s).1)
        = (some c2,
            bound_frame c.source c.effect c.params
              ⟨M.ofDouble (s.doubles "border_top"), M.ofDouble (s.doubles "border_left"),
               M.ofDouble (s.doubles "border_bottom"), M.ofDouble (s.doubles "border_right")⟩
              ⟨M.ofU32 (live_width H c.source), M.ofU32 (live_height H c.source)⟩
              out (s.bools "show_uvs") (s.bools "use_linear_filtering")
              (live_width H c.source) (live_height H c.source))
      ∧ c2.last_source_size
          = ⟨M.ofU32 (live_width H c.source), M.ofU32 (live_height H c.source)⟩)
    ∧ (∃ c2 out w h,
      PluginMain.filter_render H (some (PluginMain.filter_update c' s).1)
        = (some c2,
            .obs_enum_scenes ::
              bound_frame c'.source c'.effect c'.params
                ⟨M.ofDouble (s.doubles "border_top"), M.ofDouble (s.doubles "border_left"),
                 M.ofDouble (s.doubles "border_bottom"), M.ofDouble (s.doubles "border_right")⟩
                ⟨M.ofU32 (live_width H c'.source), M.ofU32 (live_height H c'.source)⟩
                out (s.bools "show_uvs") (s.bools "use_linear_filtering") w h)
      ∧ c2.last_source_size
          = ⟨M.ofU32 (live_width H c'.source), M.ofU32 (live_height H c'.source)⟩) := by
  constructor
  · exact ⟨_, _, fixed_filter_render_begun H (Filter9Slice.filter_update c s).1 hb, rfl⟩
  · exact ⟨_, _, _, _,
      scene_filter_render_begun H (PluginMain.filter_update c' s).1 hb', rfl⟩

/-- Witness of C1 on the sample host: the stale 7 x 7 of the sample instances is replaced
by the live 100 x 50, and the borders bound are the 8 of the sample settings. -/
theorem C1_update_then_render_binds_settings_witness :
    (sampleHost.process_filter_begin sampleCtx.source = true
      ∧ sampleHost.process_filter_begin samplePluginCtx.source = true)
    ∧ (∃ c2 out,
      Filter9Slice.filter_render sampleHost
          (some (Filter9Slice.filter_update sampleCtx sampleSettings).1)
        = (some c2,
            bound_frame sampleCtx.source sampleCtx.effect sampleCtx.params
              ⟨exactSem.ofDouble (sampleSettings.doubles "border_top"),
               exactSem.ofDouble (sampleSettings.doubles "border_left"),
               exactSem.ofDouble (sampleSettings.doubles "border_bottom"),
               exactSem.ofDouble (sampleSettings.doubles "border_right")⟩
              ⟨exactSem.ofU32 (live_width sampleHost sampleCtx.source),
               exactSem.ofU32 (live_height sampleHost sampleCtx.source)⟩
              out (sampleSettings.bools "show_uvs")
              (sampleSettings.bools "use_linear_filtering")
              (live_width sampleHost sampleCtx.source)
              (live_height sampleHost sampleCtx.source))
      ∧ c2.last_source_size
          = ⟨exactSem.ofU32 (live_width sampleHost sampleCtx.source),
             exactSem.ofU32 (live_height sampleHost sampleCtx.source)⟩) :=
  ⟨⟨rfl, rfl⟩,
   (C1_update_then_render_binds_settings sampleHost sampleSettings sampleCtx samplePluginCtx
      rfl rfl).1⟩

/-! ## C2: the output size of the fixed-scale build -/

/-- Claim C2. In `filter-9slice.c`, after `filter_update` with settings `s`, a `filter_render`
whose pass begins binds `output_size = (w * sx, h * sy)` for the live source size `w` x `h`,
where `sx` is the setting `output_scale_x` and `sy` is `output_scale_x` in uniform mode and
`output_scale_y` otherwise (both cast to `float`); in exact arithmetic a 100 x 50 source with
uniform scale 4 is bound the output size 400 x 200. -/
theorem C2_fixed_scale_output_size {M : FloatSem} (H : Host M) (s : obs_data M)
    (c : Filter9Slice.filter_9slice M) (hb : H.process_filter_begin c.source = true) :
    (∃ border source_size show_uvs use_linear_filtering,
      (Filter9Slice.filter_render H (some (Filter9Slice.filter_update c s).1)).2
        = bound_frame c.source c.effect c.params border source_size
            ⟨M.mul (M.ofU32 (live_width H c.source)) (M.ofDouble (s.doubles "output_scale_x")),
             M.mul (M.ofU32 (live_height H c.source))
               (if s.bools "uniform_scale" then M.ofDouble (s.doubles "output_scale_x")
                else M.ofDouble (s.doubles "output_scale_y"))⟩
            show_uvs use_linear_filtering (live_width H c.source) (live_height H c.source))
    ∧ (Filter9Slice.filter_render sampleHost
          (some (Filter9Slice.filter_update sampleCtx sampleSettings).1)).2
        = bound_frame 5 (some 1) (params_resolve sampleHost 1)
            (⟨(8 : ℚ), (8 : ℚ), (8 : ℚ), (8 : ℚ)⟩ : vec4 exactSem)
            (⟨(100 : ℚ), (50 : ℚ)⟩ : vec2 exactSem)
            (⟨(400 : ℚ), (200 : ℚ)⟩ : vec2 exactSem)
            false false 100 50 := by
  constructor
  · rw [fixed_filter_render_begun H (Filter9Slice.filter_update c s).1 hb]
    exact ⟨_, _, _, _, rfl⟩
  · exact fixed_sample_frame

/-- Witness of C2 on the sample host, instance and settings. -/
theorem C2_fixed_scale_output_size_witness :
    sampleHost.process_filter_begin sampleCtx.source = true
    ∧ ∃ border source_size show_uvs use_linear_filtering,
      (Filter9Slice.filter_render sampleHost
          (some (Filter9Slice.filter_update sampleCtx sampleSettings).1)).2
        = bound_frame sampleCtx.source sampleCtx.effect sampleCtx.params border source_size
            ⟨exactSem.mul (exactSem.ofU32 (live_width sampleHost sampleCtx.source))
               (exactSem.ofDouble (sampleSettings.doubles "output_scale_x")),
             exactSem.mul (exactSem.ofU32 (live_height sampleHost sampleCtx.source))
               (if sampleSettings.bools "uniform_scale"
                then exactSem.ofDouble (sampleSettings.doubles "output_scale_x")
                else exactSem.ofDouble (sampleSettings.doubles "output_scale_y"))⟩
            show_uvs use_linear_filtering (live_width sampleHost sampleCtx.source)
            (live_height sampleHost sampleCtx.source) :=
  ⟨rfl, (C2_fixed_scale_output_size sampleHost sampleSettings sampleCtx rfl).1⟩

/-! ## C3: uniform scale mirrors X into Y -/

/-- Claim C3. In `filter-9slice.c`, `filter_update` with `uniform_scale` set leaves the stored
setting `output_scale_y` equal to the stored `output_scale_x`, which is the input
`output_scale_x`, whatever `output_scale_y` was (no other key changes), and makes the
instance's Y pixel scale equal to its X pixel scale; with `uniform_scale` clear the stored
settings are left unchanged. -/
theorem C3_uniform_scale_mirrors_x {M : FloatSem} (c : Filter9Slice.filter_9slice M)
    (s : obs_data M) :
    (s.bools "uniform_scale" = true →
      (Filter9Slice.filter_update c s).2.doubles "output_scale_y" = s.doubles "output_scale_x"
      ∧ (Filter9Slice.filter_update c s).2.doubles "output_scale_y"
          = (Filter9Slice.filter_update c s).2.doubles "output_scale_x"
      ∧ (∀ k, k ≠ "output_scale_y" → (Filter9Slice.filter_update c s).2.doubles k = s.doubles k)
      ∧ (Filter9Slice.filter_update c s).2.bools = s.bools
      ∧ (Filter9Slice.filter_update c s).1.output_pixel_scale.y
          = (Filter9Slice.filter_update c s).1.output_pixel_scale.x)
    ∧ (s.bools "uniform_scale" = false → (Filter9Slice.filter_update c s).2 = s) := by
  constructor
  · intro hu
    simp only [Filter9Slice.filter_update, obs_data_get_bool, obs_data_get_double,
      obs_data_set_double, hu, if_true]
    refine ⟨trivial, ?_, ?_, trivial, trivial⟩
    · simp
    · intro k hk
      simp [hk]
  · intro hu
    simp [Filter9Slice.filter_update, obs_data_get_bool, hu]

/-- Witness of C3: the sample settings are uniform with scale 4 and a stale Y scale of 9,
which `filter_update` replaces; the same settings with `uniform_scale` cleared (the key
renamed away) are left as they are. -/
theorem C3_uniform_scale_mirrors_x_witness :
    (sampleSettings.bools "uniform_scale" = true
      ∧ sampleSettings.doubles "output_scale_y" = (9 : ℚ)
      ∧ (Filter9Slice.filter_update sampleCtx sampleSettings).2.doubles "output_scale_y"
          = sampleSettings.doubles "output_scale_x")
    ∧ ((obs_data.mk (fun _ => false) sampleSettings.doubles : obs_data exactSem).bools
          "uniform_scale" = false
      ∧ (Filter9Slice.filter_update sampleCtx
            (obs_data.mk (fun _ => false) sampleSettings.doubles)).2
          = obs_data.mk (fun _ => false) sampleSettings.doubles) :=
  ⟨⟨rfl, rfl,
    ((C3_uniform_scale_mirrors_x sampleCtx sampleSettings).1 rfl).1⟩,
   ⟨rfl,
    (C3_uniform_scale_mirrors_x sampleCtx (obs_data.mk (fun _ => false) sampleSettings.doubles)).2
      rfl⟩⟩

/-! ## C4: creation fails exactly when the effect fails to load -/

/-- Claim C4. In `filter-9slice.c`, `filter_create` returns null exactly when the effect fails
to load.  When loading fails the allocated instance is freed (inside its own graphics
section), null is returned and the settings are returned as they were; when loading gives
the effect `e`, the instance returned is the zeroed record with the source, the effect `e`
and whatever slots resolved (any of them may be null), configured by `filter_update` with
the settings. -/
theorem C4_create_null_iff_load_fails {M : FloatSem} (H : Host M) (s : obs_data M)
    (source : Nat) :
    ((Filter9Slice.filter_create H s source).1 = none ↔ H.effect_create_from_file = none)
    ∧ (H.effect_create_from_file = none →
        Filter9Slice.filter_create H s source
          = (none, s,
              [ .bzalloc,
                .obs_enter_graphics, .gs_effect_create_from_file none, .obs_leave_graphics,
                .obs_enter_graphics, .bfree, .obs_leave_graphics ]))
    ∧ (∀ e, H.effect_create_from_file = some e →
        Filter9Slice.filter_create H s source
          = (some (Filter9Slice.filter_update
                { Filter9Slice.zeroed M with
                  source := source, effect := some e, params := params_resolve H e } s).1,
             (Filter9Slice.filter_update
                { Filter9Slice.zeroed M with
                  source := source, effect := some e, params := params_resolve H e } s).2,
             [ .bzalloc, .obs_enter_graphics, .gs_effect_create_from_file (some e) ]
               ++ params_resolve_calls M e ++ [ .obs_leave_graphics ])) := by
  cases h : H.effect_create_from_file with
  | none =>
    refine ⟨?_, ?_, ?_⟩
    · simp [Filter9Slice.filter_create, Filter9Slice.filter_reload_effect, h,
        Filter9Slice.zeroed]
    · intro _
      simp [Filter9Slice.filter_create, Filter9Slice.filter_reload_effect, h,
        Filter9Slice.zeroed, Filter9Slice.filter_destroy]
    · intro e he
      cases he
  | some e0 =>
    refine ⟨?_, ?_, ?_⟩
    · simp [Filter9Slice.filter_create, Filter9Slice.filter_reload_effect, h,
        Filter9Slice.zeroed]
    · intro he
      cases he
    · intro e he
      cases he
      simp [Filter9Slice.filter_create, Filter9Slice.filter_reload_effect, h,
        Filter9Slice.zeroed]

/-- Witness of C4: on the host whose effect fails to load creation returns null and leaves
the sample settings alone; on the host where only `show_uvs` resolves an instance is still
returned. -/
theorem C4_create_null_iff_load_fails_witness :
    (failingHost.effect_create_from_file = none
      ∧ Filter9Slice.filter_create failingHost sampleSettings 5
          = (none, sampleSettings,
              [ .bzalloc,
                .obs_enter_graphics, .gs_effect_create_from_file none, .obs_leave_graphics,
                .obs_enter_graphics, .bfree, .obs_leave_graphics ]))
    ∧ (degradedHost.effect_create_from_file = some 1
      ∧ Filter9Slice.filter_create degradedHost sampleSettings 5
          = (some (Filter9Slice.filter_update
                { Filter9Slice.zeroed exactSem with
                  source := 5, effect := some 1, params := params_resolve degradedHost 1 }
                sampleSettings).1,
             (Filter9Slice.filter_update
                { Filter9Slice.zeroed exactSem with
                  source := 5, effect := some 1, params := params_resolve degradedHost 1 }
                sampleSettings).2,
             [ .bzalloc, .obs_enter_graphics, .gs_effect_create_from_file (some 1) ]
               ++ params_resolve_calls exactSem 1 ++ [ .obs_leave_graphics ])) :=
  ⟨⟨rfl, (C4_create_null_iff_load_fails failingHost sampleSettings 5).2.1 rfl⟩,
   ⟨rfl, (C4_create_null_iff_load_fails degradedHost sampleSettings 5).2.2 1 rfl⟩⟩

/-! ## C5: `filter_update` is idempotent -/

/-- Claim C5. In both builds `filter_update` is idempotent: with `(c1, s1)` the result of
updating `c` with `s`, updating `c1` with `s` again, or with the rewritten settings `s1`,
gives `(c1, s1)` again; and the result does not depend on the borders, flags or scale that
`c` held, only on its source, effect, slots and last source size. -/
theorem C5_update_idempotent {M : FloatSem} (s : obs_data M)
    (c d : Filter9Slice.filter_9slice M) (c' d' : PluginMain.filter_9slice M) :
    (Filter9Slice.filter_update (Filter9Slice.filter_update c s).1 s
        = Filter9Slice.filter_update c s
      ∧ Filter9Slice.filter_update (Filter9Slice.filter_update c s).1
            (Filter9Slice.filter_update c s).2
          = Filter9Slice.filter_update c s
      ∧ (d.source = c.source → d.effect = c.effect → d.params = c.params →
          d.last_source_size = c.last_source_size →
          Filter9Slice.filter_update d s = Filter9Slice.filter_update c s))
    ∧ (PluginMain.filter_update (PluginMain.filter_update c' s).1 s
        = PluginMain.filter_update c' s
      ∧ PluginMain.filter_update (PluginMain.filter_update c' s).1
            (PluginMain.filter_update c' s).2
          = PluginMain.filter_update c' s
      ∧ (d'.source = c'.source → d'.effect = c'.effect → d'.params = c'.params →
          d'.last_source_size = c'.last_source_size →
          PluginMain.filter_update d' s = PluginMain.filter_update c' s)) := by
  refine ⟨⟨rfl, ?_, ?_⟩, ⟨rfl, rfl, ?_⟩⟩
  · cases hu : s.bools "uniform_scale" with
    | false => simp [Filter9Slice.filter_update, obs_data_get_bool, hu]
    | true =>
      simp only [Filter9Slice.filter_update, obs_data_get_bool, obs_data_get_double,
        obs_data_set_double, hu, if_true]
      refine Prod.ext ?_ ?_
      · simp
      · simp only [obs_data.mk.injEq, true_and]
        funext k
        by_cases hk : k = "output_scale_y" <;> simp [hk]
  · intro h1 h2 h3 h4
    simp only [Filter9Slice.filter_update, h1, h2, h3, h4]
  · intro h1 h2 h3 h4
    simp only [PluginMain.filter_update, h1, h2, h3, h4]

/-- Witness of C5: the sample instances and the same instances with other flags and borders
are updated to the same result by the sample settings. -/
theorem C5_update_idempotent_witness :
    ((Filter9Slice.filter_9slice.mk 5 (some 1) ⟨(1 : ℚ), (2 : ℚ), (3 : ℚ), (4 : ℚ)⟩
          ⟨(3 : ℚ), (5 : ℚ)⟩ ⟨(7 : ℚ), (7 : ℚ)⟩ true false true
          (params_resolve sampleHost 1) : Filter9Slice.filter_9slice exactSem).source
        = sampleCtx.source
      ∧ Filter9Slice.filter_update
          (Filter9Slice.filter_9slice.mk 5 (some 1) ⟨(1 : ℚ), (2 : ℚ), (3 : ℚ), (4 : ℚ)⟩
            ⟨(3 : ℚ), (5 : ℚ)⟩ ⟨(7 : ℚ), (7 : ℚ)⟩ true false true
            (params_resolve sampleHost 1)) sampleSettings
          = Filter9Slice.filter_update sampleCtx sampleSettings)
    ∧ ((PluginMain.filter_9slice.mk 5 (some 1) ⟨(1 : ℚ), (2 : ℚ), (3 : ℚ), (4 : ℚ)⟩
          ⟨(7 : ℚ), (7 : ℚ)⟩ true true
          (params_resolve sampleHost 1) : PluginMain.filter_9slice exactSem).source
        = samplePluginCtx.source
      ∧ PluginMain.filter_update
          (PluginMain.filter_9slice.mk 5 (some 1) ⟨(1 : ℚ), (2 : ℚ), (3 : ℚ), (4 : ℚ)⟩
            ⟨(7 : ℚ), (7 : ℚ)⟩ true true (params_resolve sampleHost 1)) sampleSettings
          = PluginMain.filter_update samplePluginCtx sampleSettings) :=
  ⟨⟨rfl,
    (C5_update_idempotent sampleSettings sampleCtx
      (Filter9Slice.filter_9slice.mk 5 (some 1) ⟨(1 : ℚ), (2 : ℚ), (3 : ℚ), (4 : ℚ)⟩
        ⟨(3 : ℚ), (5 : ℚ)⟩ ⟨(7 : ℚ), (7 : ℚ)⟩ true false true (params_resolve sampleHost 1))
      samplePluginCtx samplePluginCtx).1.2.2 rfl rfl rfl rfl⟩,
   ⟨rfl,
    (C5_update_idempotent sampleSettings sampleCtx sampleCtx samplePluginCtx
      (PluginMain.filter_9slice.mk 5 (some 1) ⟨(1 : ℚ), (2 : ℚ), (3 : ℚ), (4 : ℚ)⟩
        ⟨(7 : ℚ), (7 : ℚ)⟩ true true (params_resolve sampleHost 1))).2.2.2 rfl rfl rfl rfl⟩⟩

/-! ## C6: the size at which the filter pass is ended -/

/-- Counterexample to C6: for the 100 x 50 sample source at uniform scale 4 the output size
bound is 400 x 200, but the filter pass is ended at 100 x 50. -/
theorem C6_pass_ended_at_source_size_counterexample :
    (Filter9Slice.filter_render sampleHost
        (some (Filter9Slice.filter_update sampleCtx sampleSettings).1)).2
      = bound_frame 5 (some 1) (params_resolve sampleHost 1)
          (⟨(8 : ℚ), (8 : ℚ), (8 : ℚ), (8 : ℚ)⟩ : vec4 exactSem)
          (⟨(100 : ℚ), (50 : ℚ)⟩ : vec2 exactSem)
          (⟨(400 : ℚ), (200 : ℚ)⟩ : vec2 exactSem)
          false false 100 50
    ∧ exactSem.ofU32 100 ≠ (400 : ℚ) ∧ exactSem.ofU32 50 ≠ (200 : ℚ) := by
  refine ⟨fixed_sample_frame, ?_, ?_⟩
  · show ((100 : ℕ) : ℚ) ≠ 400
    norm_num
  · show ((50 : ℕ) : ℚ) ≠ 200
    norm_num

/-- Claim C6, amended. A `filter_render` whose pass begins ends the pass at the unscaled live
source size: `filter-9slice.c` passes the live width and height themselves, and
`plugin-main.c` passes them after their conversion to `float` and back; the scaled size is
only what is written to the `output_size` slot. -/
theorem C6_pass_ended_at_source_size {M : FloatSem} (H : Host M)
    (c : Filter9Slice.filter_9slice M) (c' : PluginMain.filter_9slice M)
    (hb : H.process_filter_begin c.source = true)
    (hb' : H.process_filter_begin c'.source = true) :
    (Filter9Slice.filter_render H (some c)).2
        = bound_frame c.source c.effect c.params c.border
            ⟨M.ofU32 (live_width H c.source), M.ofU32 (live_height H c.source)⟩
            ⟨M.mul (M.ofU32 (live_width H c.source)) c.output_pixel_scale.x,
             M.mul (M.ofU32 (live_height H c.source)) c.output_pixel_scale.y⟩
            c.show_uvs c.use_linear_filtering
            (live_width H c.source) (live_height H c.source)
    ∧ ∃ output_size,
      (PluginMain.filter_render H (some c')).2
        = .obs_enum_scenes ::
            bound_frame c'.source c'.effect c'.params c'.border
              ⟨M.ofU32 (live_width H c'.source), M.ofU32 (live_height H c'.source)⟩
              output_size c'.show_uvs c'.use_linear_filtering
              (M.toU32 (M.ofU32 (live_width H c'.source)))
              (M.toU32 (M.ofU32 (live_height H c'.source))) := by
  constructor
  · rw [fixed_filter_render_begun H c hb]
  · rw [scene_filter_render_begun H c' hb']
    exact ⟨_, rfl⟩

/-- Witness of C6 (amended) on the sample host and instances. -/
theorem C6_pass_ended_at_source_size_witness :
    (sampleHost.process_filter_begin sampleCtx.source = true
      ∧ sampleHost.process_filter_begin samplePluginCtx.source = true)
    ∧ (Filter9Slice.filter_render sampleHost (some sampleCtx)).2
        = bound_frame sampleCtx.source sampleCtx.effect sampleCtx.params sampleCtx.border
            ⟨exactSem.ofU32 (live_width sampleHost sampleCtx.source),
             exactSem.ofU32 (live_height sampleHost sampleCtx.source)⟩
            ⟨exactSem.mul (exactSem.ofU32 (live_width sampleHost sampleCtx.source))
               sampleCtx.output_pixel_scale.x,
             exactSem.mul (exactSem.ofU32 (live_height sampleHost sampleCtx.source))
               sampleCtx.output_pixel_scale.y⟩
            sampleCtx.show_uvs sampleCtx.use_linear_filtering
            (live_width sampleHost sampleCtx.source) (live_height sampleHost sampleCtx.source) :=
  ⟨⟨rfl, rfl⟩, (C6_pass_ended_at_source_size sampleHost sampleCtx samplePluginCtx rfl rfl).1⟩

/-! ## C7: rendering without a program -/

/-- On a source with no width yet (0 x 50), an infinite `output_scale_x` makes
`filter_render` of `filter-9slice.c` bind the output size NaN x 200 (zero times infinity):
the scale factor is `>= 0`, the output width is not. -/
theorem zero_width_infinite_scale_binds_nan :
    (Filter9Slice.filter_render emptySourceHost
        (some (Filter9Slice.filter_update specialCtx infiniteSettings).1)).2
      = bound_frame 5 (some 1) params_null
          (⟨ExtQ.fin 8, ExtQ.fin 8, ExtQ.fin 8, ExtQ.fin 8⟩ : vec4 specialSem)
          (⟨ExtQ.fin 0, ExtQ.fin 50⟩ : vec2 specialSem)
          (⟨ExtQ.nan, ExtQ.fin 200⟩ : vec2 specialSem)
          false false 0 50
    ∧ specialSem.nonneg ExtQ.pos_inf = true
    ∧ specialSem.nonneg ExtQ.nan = false := by
  refine ⟨?_, rfl, rfl⟩
  rw [fixed_filter_render_begun emptySourceHost _ rfl]
  show bound_frame 5 (some 1) params_null
      (⟨ExtQ.fin 8, ExtQ.fin 8, ExtQ.fin 8, ExtQ.fin 8⟩ : vec4 specialSem)
      (⟨ExtQ.fin ((0 : ℕ) : ℚ), ExtQ.fin ((50 : ℕ) : ℚ)⟩ : vec2 specialSem)
      (⟨ExtQ.mul (ExtQ.fin ((0 : ℕ) : ℚ)) ExtQ.pos_inf,
        ExtQ.mul (ExtQ.fin ((50 : ℕ) : ℚ)) (ExtQ.fin 4)⟩ : vec2 specialSem)
      false false 0 50 = _
  have h0 : ((0 : ℕ) : ℚ) = 0 := by norm_num
  have h50 : ((50 : ℕ) : ℚ) = 50 := by norm_num
  have hx : ExtQ.mul (ExtQ.fin 0) ExtQ.pos_inf = ExtQ.nan := by simp [ExtQ.mul]
  have hy : ExtQ.mul (ExtQ.fin 50) (ExtQ.fin 4) = ExtQ.fin 200 := by
    simp only [ExtQ.mul]
    norm_num
  rw [h0, h50, hx, hy]

/-- Claim C9. In `plugin-main.c`, a `filter_render` whose pass begins uses the scale `(1, 1)`
when the scene enumeration finds no placement of the filter's parent source: the output size
bound is `(w * 1.0f, h * 1.0f)`, which is the source size `(w, h)` as soon as multiplying by
`1.0f` changes nothing; when a placement is found, the output size bound is
`(w * scale.x, h * scale.y)` for that placement's scale. -/
theorem C9_scene_scale_output_size {M : FloatSem} (H : Host M)
    (c' : PluginMain.filter_9slice M) (hb' : H.process_filter_begin c'.source = true) :
    (placement_of H (H.filter_get_parent c'.source) = none →
      (∃ width height,
        (PluginMain.filter_render H (some c')).2
          = .obs_enum_scenes ::
              bound_frame c'.source c'.effect c'.params c'.border
                ⟨M.ofU32 (live_width H c'.source), M.ofU32 (live_height H c'.source)⟩
                ⟨M.mul (M.ofU32 (live_width H c'.source)) M.one,
                 M.mul (M.ofU32 (live_height H c'.source)) M.one⟩
                c'.show_uvs c'.use_linear_filtering width height)
      ∧ ((∀ a, M.mul a M.one = a) →
        ∃ width height,
          (PluginMain.filter_render H (some c')).2
            = .obs_enum_scenes ::
                bound_frame c'.source c'.effect c'.params c'.border
                  ⟨M.ofU32 (live_width H c'.source), M.ofU32 (live_height H c'.source)⟩
                  ⟨M.ofU32 (live_width H c'.source), M.ofU32 (live_height H c'.source)⟩
                  c'.show_uvs c'.use_linear_filtering width height))
    ∧ (∀ item, placement_of H (H.filter_get_parent c'.source) = some item →
      ∃ width height,
        (PluginMain.filter_render H (some c')).2
          = .obs_enum_scenes ::
              bound_frame c'.source c'.effect c'.params c'.border
                ⟨M.ofU32 (live_width H c'.source), M.ofU32 (live_height H c'.source)⟩
                ⟨M.mul (M.ofU32 (live_width H c'.source)) (H.sceneitem_get_scale item).x,
                 M.mul (M.ofU32 (live_height H c'.source)) (H.sceneitem_get_scale item).y⟩
                c'.show_uvs c'.use_linear_filtering width height) := by
  constructor
  · intro hp
    rw [scene_filter_render_begun H c' hb', hp]
    refine ⟨⟨_, _, rfl⟩, ?_⟩
    intro h1
    refine ⟨M.toU32 (M.ofU32 (live_width H c'.source)),
      M.toU32 (M.ofU32 (live_height H c'.source)), ?_⟩
    show HostCall.obs_enum_scenes ::
        bound_frame c'.source c'.effect c'.params c'.border
          ⟨M.ofU32 (live_width H c'.source), M.ofU32 (live_height H c'.source)⟩
          ⟨M.mul (M.ofU32 (live_width H c'.source)) M.one,
           M.mul (M.ofU32 (live_height H c'.source)) M.one⟩
          c'.show_uvs c'.use_linear_filtering
          (M.toU32 (M.ofU32 (live_width H c'.source)))
          (M.toU32 (M.ofU32 (live_height H c'.source))) = _
    rw [h1, h1]
  · intro item hp
    rw [scene_filter_render_begun H c' hb', hp]
    exact ⟨_, _, rfl⟩

/-- Witness of C9: the sample host has no scene, so no placement is found, and in exact
arithmetic multiplying by one changes nothing, so the output size bound is the source size;
the host with the flipped scene item finds the placement 31. -/
theorem C9_scene_scale_output_size_witness :
    ((sampleHost.process_filter_begin samplePluginCtx.source = true
        ∧ placement_of sampleHost (sampleHost.filter_get_parent samplePluginCtx.source) = none
        ∧ ∀ a, exactSem.mul a exactSem.one = a)
      ∧ ∃ width height,
        (PluginMain.filter_render sampleHost (some samplePluginCtx)).2
          = .obs_enum_scenes ::
              bound_frame samplePluginCtx.source samplePluginCtx.effect samplePluginCtx.params
                samplePluginCtx.border
                ⟨exactSem.ofU32 (live_width sampleHost samplePluginCtx.source),
                 exactSem.ofU32 (live_height sampleHost samplePluginCtx.source)⟩
                ⟨exactSem.ofU32 (live_width sampleHost samplePluginCtx.source),
                 exactSem.ofU32 (live_height sampleHost samplePluginCtx.source)⟩
                samplePluginCtx.show_uvs samplePluginCtx.use_linear_filtering width height)
    ∧ ((flippedHost.process_filter_begin samplePluginCtx.source = true
        ∧ placement_of flippedHost (flippedHost.filter_get_parent samplePluginCtx.source)
            = some 31)
      ∧ ∃ width height,
        (PluginMain.filter_render flippedHost (some samplePluginCtx)).2
          = .obs_enum_scenes ::
              bound_frame samplePluginCtx.source samplePluginCtx.effect samplePluginCtx.params
                samplePluginCtx.border
                ⟨exactSem.ofU32 (live_width flippedHost samplePluginCtx.source),
                 exactSem.ofU32 (live_height flippedHost samplePluginCtx.source)⟩
                ⟨exactSem.mul (exactSem.ofU32 (live_width flippedHost samplePluginCtx.source))
                   (flippedHost.sceneitem_get_scale 31).x,
                 exactSem.mul (exactSem.ofU32 (live_height flippedHost samplePluginCtx.source))
                   (flippedHost.sceneitem_get_scale 31).y⟩
                samplePluginCtx.show_uvs samplePluginCtx.use_linear_filtering width height) :=
  ⟨⟨⟨rfl, rfl, fun a => mul_one a⟩,
    ((C9_scene_scale_output_size sampleHost samplePluginCtx rfl).1 rfl).2 fun a => mul_one a⟩,
   ⟨⟨rfl, by simp [placement_of, flippedHost, sampleHost, List.findSome?]⟩,
    (C9_scene_scale_output_size flippedHost samplePluginCtx rfl).2 31
      (by simp [placement_of, flippedHost, sampleHost, List.findSome?])⟩⟩

/-! ## C10: effect creation and destruction happen inside the graphics context -/

/-- Claim C10. In both builds the traces of `filter_create`, `filter_reload_effect` and
`filter_destroy` respect the graphics-context discipline, on every path (the effect loading
or not, an effect being held or not, the instance being null or not): every
`obs_enter_graphics` is made with the context released and is followed by one
`obs_leave_graphics`, every effect creation and destruction is made with the context held,
and the context is released at the end. -/
theorem C10_graphics_context_scoped {M : FloatSem} (H : Host M) (s : obs_data M) (source : Nat)
    (c : Filter9Slice.filter_9slice M) (data : Option (Filter9Slice.filter_9slice M))
    (c' : PluginMain.filter_9slice M) (data' : Option (PluginMain.filter_9slice M)) :
    (graphics_scoped false (Filter9Slice.filter_create H s source).2.2 = true
      ∧ graphics_scoped false (Filter9Slice.filter_reload_effect H c).2.2 = true
      ∧ graphics_scoped false (Filter9Slice.filter_destroy data) = true)
    ∧ (graphics_scoped false (PluginMain.filter_create H s source).2.2 = true
      ∧ graphics_scoped false (PluginMain.filter_reload_effect H c').2.2 = true
      ∧ graphics_scoped false (PluginMain.filter_destroy data') = true) := by
  refine ⟨⟨?_, ?_, ?_⟩, ⟨?_, ?_, ?_⟩⟩
  · cases h : H.effect_create_from_file <;>
      simp [Filter9Slice.filter_create, Filter9Slice.filter_reload_effect,
        Filter9Slice.filter_destroy, Filter9Slice.zeroed, params_resolve_calls, h,
        graphics_scoped]
  · cases h : H.effect_create_from_file <;> cases hc : c.effect <;>
      simp [Filter9Slice.filter_reload_effect, params_resolve_calls, h, hc, graphics_scoped]
  · cases data with
    | none => rfl
    | some d =>
      cases hd : d.effect <;> simp [Filter9Slice.filter_destroy, hd, graphics_scoped]
  · cases h : H.effect_create_from_file <;>
      simp [PluginMain.filter_create, PluginMain.filter_reload_effect,
        PluginMain.filter_destroy, PluginMain.zeroed, params_resolve_calls, h,
        graphics_scoped]
  · cases h : H.effect_create_from_file <;> cases hc : c'.effect <;>
      simp [PluginMain.filter_reload_effect, params_resolve_calls, h, hc, graphics_scoped]
  · cases data' with
    | none => rfl
    | some d =>
      cases hd : d.effect <;> simp [PluginMain.filter_destroy, hd, graphics_scoped]

/-! ## C11: slots that failed to resolve -/

/-- Counterexample to C11: on the host where only `show_uvs` resolves, the instance that
`filter_create` returns has a null `border` slot, and a `filter_render` on it still issues
all five set-parameter calls, four of them with a null handle. -/
theorem C11_set_calls_with_null_handle_counterexample :
    (∃ c, (Filter9Slice.filter_create degradedHost sampleSettings 5).1 = some c
        ∧ c.params.border = none)
    ∧ (Filter9Slice.filter_render degradedHost
          (Filter9Slice.filter_create degradedHost sampleSettings 5).1).2
        = [ .obs_source_process_filter_begin 5,
            .gs_effect_set_vec4 none (⟨(8 : ℚ), (8 : ℚ), (8 : ℚ), (8 : ℚ)⟩ : vec4 exactSem),
            .gs_effect_set_vec2 none (⟨(100 : ℚ), (50 : ℚ)⟩ : vec2 exactSem),
            .gs_effect_set_vec2 none (⟨(400 : ℚ), (200 : ℚ)⟩ : vec2 exactSem),
            .gs_effect_set_bool (some 8) false,
            .gs_effect_set_bool none false,
            .obs_source_process_filter_end 5 (some 1) 100 50 ]
    ∧ set_param_handles
          (Filter9Slice.filter_render degradedHost
            (Filter9Slice.filter_create degradedHost sampleSettings 5).1).2
        = [none, none, none, some 8, none] := by
  have hc : (Filter9Slice.filter_create degradedHost sampleSettings 5).1
      = some (Filter9Slice.filter_update
          { Filter9Slice.zeroed exactSem with
            source := 5, effect := some 1, params := params_resolve degradedHost 1 }
          sampleSettings).1 := rfl
  have ht : (Filter9Slice.filter_render degradedHost
        (Filter9Slice.filter_create degradedHost sampleSettings 5).1).2
      = [ .obs_source_process_filter_begin 5,
          .gs_effect_set_vec4 none (⟨(8 : ℚ), (8 : ℚ), (8 : ℚ), (8 : ℚ)⟩ : vec4 exactSem),
          .gs_effect_set_vec2 none (⟨(100 : ℚ), (50 : ℚ)⟩ : vec2 exactSem),
          .gs_effect_set_vec2 none (⟨(400 : ℚ), (200 : ℚ)⟩ : vec2 exactSem),
          .gs_effect_set_bool (some 8) false,
          .gs_effect_set_bool none false,
          .obs_source_process_filter_end 5 (some 1) 100 50 ] := by
    rw [hc, fixed_filter_render_begun degradedHost _ rfl]
    show [ HostCall.obs_source_process_filter_begin 5,
          .gs_effect_set_vec4 none (⟨(8 : ℚ), (8 : ℚ), (8 : ℚ), (8 : ℚ)⟩ : vec4 exactSem),
          .gs_effect_set_vec2 none (⟨((100 : ℕ) : ℚ), ((50 : ℕ) : ℚ)⟩ : vec2 exactSem),
          .gs_effect_set_vec2 none
            (⟨((100 : ℕ) : ℚ) * (4 : ℚ), ((50 : ℕ) : ℚ) * (4 : ℚ)⟩ : vec2 exactSem),
          .gs_effect_set_bool (some 8) false,
          .gs_effect_set_bool none false,
          .obs_source_process_filter_end 5 (some 1) 100 50 ] = _
    have hx : ((100 : ℕ) : ℚ) * (4 : ℚ) = 400 := by norm_num
    have hy : ((50 : ℕ) : ℚ) * (4 : ℚ) = 200 := by norm_num
    rw [hx, hy]
    rfl
  refine ⟨⟨_, hc, rfl⟩, ht, ?_⟩
  rw [ht]
  rfl

/-- Claim C11, amended. In both builds a `filter_render` whose pass begins issues the five
set-parameter calls unconditionally, each with the slot handle as stored in the instance,
null or not: the handles passed are, in order, those of `border`, `source_size`,
`output_size`, `show_uvs` and `use_linear_filtering`.  Every slot, so every resolved one, is
passed its value (the borders, the live source size, an output size, the two flags), and the
last call ends the filter pass. -/
theorem C11_set_calls_unconditional {M : FloatSem} (H : Host M)
    (c : Filter9Slice.filter_9slice M) (c' : PluginMain.filter_9slice M)
    (hb : H.process_filter_begin c.source = true)
    (hb' : H.process_filter_begin c'.source = true) :
    (set_param_handles (Filter9Slice.filter_render H (some c)).2
        = [ c.params.border, c.params.source_size, c.params.output_size,
            c.params.show_uvs, c.params.use_linear_filtering ]
      ∧ .gs_effect_set_vec4 c.params.border c.border ∈ (Filter9Slice.filter_render H (some c)).2
      ∧ .gs_effect_set_vec2 c.params.source_size
            ⟨M.ofU32 (live_width H c.source), M.ofU32 (live_height H c.source)⟩
          ∈ (Filter9Slice.filter_render H (some c)).2
      ∧ (∃ output_size,
          .gs_effect_set_vec2 c.params.output_size output_size
            ∈ (Filter9Slice.filter_render H (some c)).2)
      ∧ .gs_effect_set_bool c.params.show_uvs c.show_uvs
          ∈ (Filter9Slice.filter_render H (some c)).2
      ∧ .gs_effect_set_bool c.params.use_linear_filtering c.use_linear_filtering
          ∈ (Filter9Slice.filter_render H (some c)).2
      ∧ (Filter9Slice.filter_render H (some c)).2.getLast?
          = some (.obs_source_process_filter_end c.source c.effect
              (live_width H c.source) (live_height H c.source)))
    ∧ (set_param_handles (PluginMain.filter_render H (some c')).2
        = [ c'.params.border, c'.params.source_size, c'.params.output_size,
            c'.params.show_uvs, c'.params.use_linear_filtering ]
      ∧ .gs_effect_set_vec4 c'.params.border c'.border
          ∈ (PluginMain.filter_render H (some c')).2
      ∧ .gs_effect_set_vec2 c'.params.source_size
            ⟨M.ofU32 (live_width H c'.source), M.ofU32 (live_height H c'.source)⟩
          ∈ (PluginMain.filter_render H (some c')).2
      ∧ (∃ output_size,
          .gs_effect_set_vec2 c'.params.output_size output_size
            ∈ (PluginMain.filter_render H (some c')).2)
      ∧ .gs_effect_set_bool c'.params.show_uvs c'.show_uvs
          ∈ (PluginMain.filter_render H (some c')).2
      ∧ .gs_effect_set_bool c'.params.use_linear_filtering c'.use_linear_filtering
          ∈ (PluginMain.filter_render H (some c')).2
      ∧ (PluginMain.filter_render H (some c')).2.getLast?
          = some (.obs_source_process_filter_end c'.source c'.effect
              (M.toU32 (M.ofU32 (live_width H c'.source)))
              (M.toU32 (M.ofU32 (live_height H c'.source))))) := by
  constructor
  · rw [fixed_filter_render_begun H c hb]
    refine ⟨rfl, ?_, ?_, ⟨_, .tail _ (.tail _ (.tail _ (.head _)))⟩, ?_, ?_, rfl⟩ <;>
      simp [bound_frame]
  · rw [scene_filter_render_begun H c' hb']
    refine ⟨rfl, ?_, ?_, ⟨_, .tail _ (.tail _ (.tail _ (.tail _ (.head _))))⟩, ?_, ?_, rfl⟩ <;>
      simp [bound_frame]

/-- Witness of C11 (amended): on the host where only `show_uvs` resolves, the instance with
the slots resolved there (four of them null) is passed all five handles. -/
theorem C11_set_calls_unconditional_witness :
    (degradedHost.process_filter_begin
          (Filter9Slice.filter_9slice.mk 5 (some 1) ⟨(8 : ℚ), (8 : ℚ), (8 : ℚ), (8 : ℚ)⟩
            ⟨(4 : ℚ), (4 : ℚ)⟩ ⟨(0 : ℚ), (0 : ℚ)⟩ false true false
            (params_resolve degradedHost 1) : Filter9Slice.filter_9slice exactSem).source
        = true
      ∧ degradedHost.process_filter_begin samplePluginCtx.source = true
      ∧ (params_resolve degradedHost 1).border = none)
    ∧ set_param_handles
        (Filter9Slice.filter_render degradedHost
          (some (Filter9Slice.filter_9slice.mk 5 (some 1) ⟨(8 : ℚ), (8 : ℚ), (8 : ℚ), (8 : ℚ)⟩
            ⟨(4 : ℚ), (4 : ℚ)⟩ ⟨(0 : ℚ), (0 : ℚ)⟩ false true false
            (params_resolve degradedHost 1)))).2
      = [ (params_resolve degradedHost 1).border, (params_resolve degradedHost 1).source_size,
          (params_resolve degradedHost 1).output_size, (params_resolve degradedHost 1).show_uvs,
          (params_resolve degradedHost 1).use_linear_filtering ] :=
  ⟨⟨rfl, rfl, rfl⟩,
   (C11_set_calls_unconditional degradedHost
      (Filter9Slice.filter_9slice.mk 5 (some 1) ⟨(8 : ℚ), (8 : ℚ), (8 : ℚ), (8 : ℚ)⟩
        ⟨(4 : ℚ), (4 : ℚ)⟩ ⟨(0 : ℚ), (0 : ℚ)⟩ false true false (params_resolve degradedHost 1))
      samplePluginCtx rfl rfl).1.1⟩
